import Mathlib

/-!
Shallow embedding of the cashflow-api core: the Customer credit rule, the
Sales save pipeline and routes, the Cheque lifecycle, the Purchase save
pipeline and status route, and the supplier delete guard.

Modelling conventions:
* JS numbers carrying money amounts are modelled as rationals, dates as
  integers (timestamps), MongoDB object ids as naturals.
* A mongoose save runs schema validation first and the registered pre-save
  hooks afterwards, in registration order; mongoose documentation states
  that custom and min/max validators are skipped on undefined values, which
  we encode with the combinator optValid below.
* findOneAndUpdate runs no pre-save hooks; route handlers built on it are
  modelled as direct state updates.
-/

namespace Cashflow

/-- Mongoose runs a validator of a non-required path only when the value is
defined; an undefined (none) value passes vacuously. -/
def optValid {α : Type} (v : Option α) (p : α → Bool) : Bool :=
  match v with
  | none => true
  | some x => p x

/-- The JS numeric literal 0.01 (the payment tolerance and the smallest
admissible quantity/amount), as the exact rational 1/100. -/
def cent : ℚ := Rat.mk' 1 100 (by decide) (by decide)

/-- Math.abs. -/
def jsAbs (x : ℚ) : ℚ := if x < 0 then -x else x

deriving instance DecidableEq for Except

/-! ## Customer (src/unnamed/part_000, customerSchema) -/

inductive CustomerStatus
  | active | inactive | suspended
deriving DecidableEq, Repr

/-- Projection of creditProfile: the paths the credit rule reads and writes.
Fields not touched by any claim (rating, paymentTerms, riskCategory,
creditHistory) are omitted from the projection. -/
structure CreditProfile where
  creditLimit : ℚ
  availableCredit : ℚ
deriving DecidableEq, Repr

structure Customer where
  id : ℕ
  createdBy : ℕ
  creditProfile : CreditProfile
  status : CustomerStatus
deriving DecidableEq, Repr

/-- Schema validators on the modelled customer paths: creditLimit min 0 and
availableCredit min 0. -/
def customerValid (c : Customer) : Bool :=
  0 ≤ c.creditProfile.creditLimit && 0 ≤ c.creditProfile.availableCredit

/-- Pre-save hook of customerSchema: if availableCredit exceeds creditLimit
it is overwritten with creditLimit. -/
def customerClampHook (c : Customer) : Customer :=
  if c.creditProfile.availableCredit > c.creditProfile.creditLimit then
    { c with creditProfile := { c.creditProfile with
        availableCredit := c.creditProfile.creditLimit } }
  else c

/-- customer.save(): validation first, then the clamping pre-save hook. -/
def saveCustomer (c : Customer) : Except String Customer :=
  if customerValid c then
    Except.ok (customerClampHook c)
  else
    Except.error "Customer validation failed"

/-! ## Sales model (src/models/Sales.js) -/

inductive PayMethod
  | cash | credit | mixed
deriving DecidableEq, Repr

inductive SaleStatus
  | completed | pending | cancelled
deriving DecidableEq, Repr

/-- A sales line item; productId and productName do not take part in any
computation and are omitted. The three numeric fields are modelled as
present (the schema leaves them optional but every claim concerns items
carrying values). -/
structure SaleItem where
  quantity : ℚ
  unitPrice : ℚ
  totalPrice : ℚ
deriving DecidableEq, Repr

structure TransactionSummary where
  subtotal : ℚ
  tax : ℚ
  discount : ℚ
  totalAmount : ℚ
deriving DecidableEq, Repr

structure PaymentDetails where
  paymentMethod : PayMethod
  cashAmount : ℚ
  creditAmount : ℚ
  dueDate : Option ℤ
deriving DecidableEq, Repr

structure Sale where
  id : ℕ
  transactionId : String
  customerId : ℕ
  items : List SaleItem
  transactionSummary : TransactionSummary
  paymentDetails : PaymentDetails
  status : SaleStatus
  salesPerson : String
  createdBy : ℕ
deriving DecidableEq, Repr

/-- Schema validators of salesSchema on the modelled paths, as run on a new
document (every path modified). Numeric paths are defined, so their min and
finiteness validators run; the dueDate validator runs only on a defined
date, where the branch requiring a date for credit transactions is
unreachable and only the future-date branch can fail. -/
def saleValid (s : Sale) (now : ℤ) : Bool :=
  s.transactionId ≠ "" && s.transactionId.length ≤ 30 &&
  s.items.all (fun i =>
    cent ≤ i.quantity && 0 ≤ i.unitPrice && 0 ≤ i.totalPrice) &&
  0 ≤ s.transactionSummary.subtotal &&
  0 ≤ s.transactionSummary.tax &&
  0 ≤ s.transactionSummary.discount &&
  0 ≤ s.transactionSummary.totalAmount &&
  0 ≤ s.paymentDetails.cashAmount &&
  0 ≤ s.paymentDetails.creditAmount &&
  optValid s.paymentDetails.dueDate (fun d => now < d) &&
  s.salesPerson ≠ "" && s.salesPerson.length ≤ 100

/-- First pre-save hook of salesSchema: reject when the cash plus credit
amounts differ from totalAmount by more than 0.01, then derive the payment
method from the amounts. -/
def salePaymentHook (s : Sale) : Except String Sale :=
  let paymentTotal := s.paymentDetails.cashAmount + s.paymentDetails.creditAmount
  let totalAmount := s.transactionSummary.totalAmount
  if jsAbs (paymentTotal - totalAmount) > cent then
    Except.error "Payment amounts must equal the total transaction amount"
  else
    let pd := s.paymentDetails
    let pd :=
      if pd.cashAmount > 0 && pd.creditAmount > 0 then
        { pd with paymentMethod := PayMethod.mixed }
      else if pd.cashAmount > 0 then
        { pd with paymentMethod := PayMethod.cash }
      else if pd.creditAmount > 0 then
        { pd with paymentMethod := PayMethod.credit }
      else pd
    Except.ok { s with paymentDetails := pd }

/-- Second pre-save hook of salesSchema: recompute every item totalPrice,
the subtotal, and totalAmount = subtotal + tax - discount. -/
def saleTotalsHook (s : Sale) : Sale :=
  let items := s.items.map (fun i => { i with totalPrice := i.quantity * i.unitPrice })
  let subtotal := (items.map (fun i => i.totalPrice)).sum
  { s with
    items := items
    transactionSummary := { s.transactionSummary with
      subtotal := subtotal
      totalAmount := subtotal + s.transactionSummary.tax - s.transactionSummary.discount } }

/-- Sales.create / sale.save() on a new document: validation, then the two
pre-save hooks in registration order. -/
def saveSale (s : Sale) (now : ℤ) : Except String Sale :=
  if saleValid s now then
    match salePaymentHook s with
    | Except.error e => Except.error e
    | Except.ok s1 => Except.ok (saleTotalsHook s1)
  else
    Except.error "Sale validation failed"

/-- The totalAmount that the second pre-save hook will store, derived from
the items, tax and discount of the incoming document. -/
def recomputedTotal (s : Sale) : ℚ :=
  (s.items.map (fun i => i.quantity * i.unitPrice)).sum
    + s.transactionSummary.tax - s.transactionSummary.discount

/-! ## Sales routes (src/routes/salesRoutes.js) -/

/-- An HTTP response as produced by the handlers: a success status code, or
an error status code with a message. -/
inductive Resp
  | success (code : ℕ)
  | failure (code : ℕ) (msg : String)
deriving DecidableEq, Repr

def Resp.isFailure : Resp → Bool
  | Resp.success _ => false
  | Resp.failure _ _ => true

/-- The slice of the document store the sales handlers touch. -/
structure SalesState where
  customers : List Customer
  sales : List Sale
deriving DecidableEq, Repr

/-- Replace the customer with the given id (the persisted result of
customer.save()). -/
def putCustomer (cs : List Customer) (c : Customer) : List Customer :=
  cs.map (fun k => if k.id = c.id then c else k)

/-- createSale handler (salesRoutes.js lines 126-198): find an active
customer owned by the caller, reject a duplicate transactionId, reject a
credit amount above the available credit, create the sale through the save
pipeline, and when credit was used decrement the customer availableCredit
and save the customer. newId stands for the generated document id. -/
def createSale (st : SalesState) (uid : ℕ) (body : Sale) (newId : ℕ)
    (now : ℤ) : Resp × SalesState :=
  match st.customers.find? (fun c =>
      c.id = body.customerId && c.createdBy = uid && c.status = CustomerStatus.active) with
  | none => (Resp.failure 400 "Invalid customer or customer not active", st)
  | some customer =>
    match st.sales.find? (fun s =>
        s.transactionId = body.transactionId && s.createdBy = uid) with
    | some _ => (Resp.failure 400 "Transaction with this ID already exists", st)
    | none =>
      if body.paymentDetails.creditAmount > 0 &&
          body.paymentDetails.creditAmount > customer.creditProfile.availableCredit then
        (Resp.failure 400 "Credit amount exceeds available credit limit", st)
      else
        match saveSale { body with id := newId, createdBy := uid } now with
        | Except.error e => (Resp.failure 500 e, st)
        | Except.ok sale =>
          let st1 := { st with sales := st.sales ++ [sale] }
          if sale.paymentDetails.creditAmount > 0 then
            let customer1 := { customer with creditProfile :=
              { customer.creditProfile with availableCredit :=
                  customer.creditProfile.availableCredit - sale.paymentDetails.creditAmount } }
            match saveCustomer customer1 with
            | Except.error e => (Resp.failure 500 e, st1)
            | Except.ok customer2 =>
              (Resp.success 201,
                { st1 with customers := putCustomer st1.customers customer2 })
          else
            (Resp.success 201, st1)

/-- deleteSale handler (salesRoutes.js lines 317-349): find the sale owned
by the caller; when credit was used, look the customer up by id alone
(findById, no owner filter) and, only if found, restore the credit and save
the customer; finally delete the sale by id and answer 204. -/
def deleteSale (st : SalesState) (uid : ℕ) (saleId : ℕ) : Resp × SalesState :=
  match st.sales.find? (fun s => s.id = saleId && s.createdBy = uid) with
  | none => (Resp.failure 404 "Sale not found", st)
  | some sale =>
    let creditStep : Except String (List Customer) :=
      if sale.paymentDetails.creditAmount > 0 then
        match st.customers.find? (fun c => c.id = sale.customerId) with
        | some customer =>
          let customer1 := { customer with creditProfile :=
            { customer.creditProfile with availableCredit :=
                customer.creditProfile.availableCredit + sale.paymentDetails.creditAmount } }
          match saveCustomer customer1 with
          | Except.error e => Except.error e
          | Except.ok customer2 => Except.ok (putCustomer st.customers customer2)
        | none => Except.ok st.customers
      else Except.ok st.customers
    match creditStep with
    | Except.error e => (Resp.failure 500 e, st)
    | Except.ok customers1 =>
      (Resp.success 204,
        { customers := customers1
          sales := st.sales.filter (fun s => s.id ≠ saleId) })

/-! ## Cheque model (src/models/Cheque.js) -/

inductive ChequeStatus
  | pending | cleared | bounced | cancelled | deposited
deriving DecidableEq, Repr

def ChequeStatus.text : ChequeStatus → String
  | ChequeStatus.pending => "pending"
  | ChequeStatus.cleared => "cleared"
  | ChequeStatus.bounced => "bounced"
  | ChequeStatus.cancelled => "cancelled"
  | ChequeStatus.deposited => "deposited"

inductive TransactionType
  | sale | purchase
deriving DecidableEq, Repr

structure StatusHistoryEntry where
  status : ChequeStatus
  date : ℤ
  notes : String
deriving DecidableEq, Repr

structure RelatedTransaction where
  transactionType : TransactionType
  customerId : Option ℕ
  supplierId : Option ℕ
deriving DecidableEq, Repr

structure ChequeDetails where
  amount : ℚ
  chequeDate : ℤ
  clearanceDate : Option ℤ
deriving DecidableEq, Repr

/-- bankProcessing. The schema declares only bounceDate, bounceReason and
bankCharges; depositDate and clearanceDate are commented out of the schema
yet read and written by the pre-save hooks and by the bounceDate validator,
so the document model carries them as fields. -/
structure BankProcessing where
  depositDate : Option ℤ
  clearanceDate : Option ℤ
  bounceDate : Option ℤ
  bounceReason : Option String
  bankCharges : ℚ
deriving DecidableEq, Repr

structure Cheque where
  id : ℕ
  chequeNumber : String
  relatedTransaction : RelatedTransaction
  chequeDetails : ChequeDetails
  status : ChequeStatus
  statusHistory : List StatusHistoryEntry
  bankProcessing : BankProcessing
  createdBy : ℕ
deriving DecidableEq, Repr

/-- Schema validation of chequeSchema on the modelled paths. save() runs
validation on the whole document (validateModifiedOnly is off), and each
custom or min validator is skipped on an undefined value:
* amount: min 0.01 plus a custom check that the value is a finite positive
  number;
* chequeDetails.clearanceDate: not before chequeDate;
* bankProcessing.bounceDate: not before depositDate when a depositDate is
  present;
* bankProcessing.bounceReason: the validator body fails when status is
  bounced and the value is falsy, which for a defined string means the
  empty string — an undefined bounceReason is never examined;
* the customerId and supplierId conditional-required validators can only
  run on defined values, where their falsiness test never fires, so they
  impose nothing;
* bankCharges: min 0; chequeNumber: maxLength 50; statusHistory notes:
  maxLength 500. -/
def chequeValid (c : Cheque) : Bool :=
  c.chequeNumber.length ≤ 50 &&
  (cent ≤ c.chequeDetails.amount && 0 < c.chequeDetails.amount) &&
  optValid c.chequeDetails.clearanceDate
    (fun v => !(v < c.chequeDetails.chequeDate)) &&
  optValid c.bankProcessing.bounceDate
    (fun v => optValid c.bankProcessing.depositDate (fun d => !(v < d))) &&
  optValid c.bankProcessing.bounceReason
    (fun r => !(c.status = ChequeStatus.bounced && r = "")) &&
  0 ≤ c.bankProcessing.bankCharges &&
  c.statusHistory.all (fun e => e.notes.length ≤ 500)

/-- First pre-save hook of chequeSchema: append a status-history entry —
"Status changed to ..." when the status path is modified on an existing
document, or the single "Cheque created" entry on a new document. -/
def chequeHistoryHook (c : Cheque) (statusModified isNew : Bool) (now : ℤ) : Cheque :=
  if statusModified && !isNew then
    { c with statusHistory := c.statusHistory ++
        [{ status := c.status, date := now,
           notes := "Status changed to " ++ c.status.text }] }
  else if isNew then
    { c with statusHistory := c.statusHistory ++
        [{ status := c.status, date := now, notes := "Cheque created" }] }
  else c

/-- Second pre-save hook of chequeSchema: when the status path is modified,
fill the processing dates that are still unset — depositDate for deposited,
both clearance dates for cleared, bounceDate for bounced. -/
def chequeDatesHook (c : Cheque) (statusModified : Bool) (now : ℤ) : Cheque :=
  if statusModified then
    match c.status with
    | ChequeStatus.deposited =>
      if c.bankProcessing.depositDate = none then
        { c with bankProcessing := { c.bankProcessing with depositDate := some now } }
      else c
    | ChequeStatus.cleared =>
      let c :=
        if c.bankProcessing.clearanceDate = none then
          { c with bankProcessing := { c.bankProcessing with clearanceDate := some now } }
        else c
      if c.chequeDetails.clearanceDate = none then
        { c with chequeDetails := { c.chequeDetails with clearanceDate := some now } }
      else c
    | ChequeStatus.bounced =>
      if c.bankProcessing.bounceDate = none then
        { c with bankProcessing := { c.bankProcessing with bounceDate := some now } }
      else c
    | _ => c
  else c

/-- cheque.save(): validation first — registered before any user pre-save
hook — then the history hook and the dates hook in registration order. -/
def saveCheque (c : Cheque) (statusModified isNew : Bool) (now : ℤ) :
    Except String Cheque :=
  if chequeValid c then
    Except.ok (chequeDatesHook (chequeHistoryHook c statusModified isNew now)
      statusModified now)
  else
    Except.error "Cheque validation failed"

/-- Cheque.create on a caller-supplied document: a save of a new document;
an explicitly supplied status counts as a modified path. -/
def createChequeDoc (c : Cheque) (now : ℤ) : Except String Cheque :=
  saveCheque c true true now

/-- A status transition on a persisted cheque: assign the target status and
any bounceReason or clearanceDate supplied in the same update, then save.
mongoose marks the status path modified only when the assigned value
differs from the stored one. -/
def chequeStatusUpdate (c : Cheque) (newStatus : ChequeStatus)
    (suppliedBounceReason : Option String) (suppliedClearanceDate : Option ℤ)
    (now : ℤ) : Except String Cheque :=
  let c1 := { c with
    status := newStatus
    bankProcessing := { c.bankProcessing with
      bounceReason :=
        match suppliedBounceReason with
        | some r => some r
        | none => c.bankProcessing.bounceReason }
    chequeDetails := { c.chequeDetails with
      clearanceDate :=
        match suppliedClearanceDate with
        | some d => some d
        | none => c.chequeDetails.clearanceDate } }
  saveCheque c1 (decide (newStatus ≠ c.status)) false now

/-! ## Purchase model (src/models/Purchase.js) -/

inductive PurchaseStatus
  | ordered | received | paid | completed
deriving DecidableEq, Repr

inductive DeliveryStatus
  | pending | shipped | delivered | delayed
deriving DecidableEq, Repr

inductive PurchasePayMethod
  | cash | credit | cheque | bank_transfer
deriving DecidableEq, Repr

structure PurchaseItem where
  quantity : ℚ
  unitCost : ℚ
  totalCost : ℚ
deriving DecidableEq, Repr

structure PurchaseSummary where
  subtotal : ℚ
  tax : ℚ
  shipping : ℚ
  totalAmount : ℚ
deriving DecidableEq, Repr

structure PurchasePayment where
  paymentMethod : PurchasePayMethod
  paidAmount : ℚ
  remainingAmount : ℚ
  dueDate : Option ℤ
deriving DecidableEq, Repr

structure DeliveryInfo where
  expectedDate : ℤ
  actualDate : Option ℤ
  deliveryStatus : DeliveryStatus
deriving DecidableEq, Repr

structure Purchase where
  id : ℕ
  purchaseOrderId : String
  supplierId : ℕ
  items : List PurchaseItem
  transactionSummary : PurchaseSummary
  paymentDetails : PurchasePayment
  deliveryInfo : DeliveryInfo
  status : PurchaseStatus
  createdBy : ℕ
deriving DecidableEq, Repr

/-- Schema validation of purchaseSchema on the modelled paths (run on the
incoming values, before the hooks recompute the derived fields). today0 is
the start of the current day, the lower bound of the expectedDate
validator. The dueDate validator body can only fail on an undefined value,
so on a defined date it imposes nothing; the actualDate validator requires
status received or completed. -/
def purchaseValid (p : Purchase) (today0 : ℤ) : Bool :=
  p.purchaseOrderId ≠ "" && p.purchaseOrderId.length ≤ 30 &&
  p.items.all (fun i =>
    (cent ≤ i.quantity && 0 < i.quantity) &&
    0 ≤ i.unitCost && 0 ≤ i.totalCost) &&
  0 ≤ p.transactionSummary.subtotal &&
  0 ≤ p.transactionSummary.tax &&
  0 ≤ p.transactionSummary.shipping &&
  0 ≤ p.transactionSummary.totalAmount &&
  0 ≤ p.paymentDetails.paidAmount &&
  0 ≤ p.paymentDetails.remainingAmount &&
  optValid p.paymentDetails.dueDate (fun _ => true) &&
  today0 ≤ p.deliveryInfo.expectedDate &&
  optValid p.deliveryInfo.actualDate (fun _ =>
    p.status = PurchaseStatus.received || p.status = PurchaseStatus.completed)

/-- First pre-save hook of purchaseSchema: recompute item totals, subtotal
and totalAmount = subtotal + tax + shipping, set remainingAmount to
totalAmount - paidAmount floored at 0, and promote a pending delivery
status to delivered once an actual date is present. -/
def purchaseTotalsHook (p : Purchase) : Purchase :=
  let items := p.items.map (fun i => { i with totalCost := i.quantity * i.unitCost })
  let subtotal := (items.map (fun i => i.totalCost)).sum
  let totalAmount := subtotal + p.transactionSummary.tax + p.transactionSummary.shipping
  let remaining0 := totalAmount - p.paymentDetails.paidAmount
  let remaining := if remaining0 < 0 then 0 else remaining0
  let delivery :=
    if p.deliveryInfo.actualDate.isSome &&
        p.deliveryInfo.deliveryStatus = DeliveryStatus.pending then
      { p.deliveryInfo with deliveryStatus := DeliveryStatus.delivered }
    else p.deliveryInfo
  { p with
    items := items
    transactionSummary := { p.transactionSummary with
      subtotal := subtotal, totalAmount := totalAmount }
    paymentDetails := { p.paymentDetails with remainingAmount := remaining }
    deliveryInfo := delivery }

/-- Second pre-save hook of purchaseSchema: reject a paid or completed
status with a positive remaining amount, and promote an ordered purchase to
paid once paidAmount reaches totalAmount. -/
def purchasePaymentHook (p : Purchase) : Except String Purchase :=
  if (p.status = PurchaseStatus.paid || p.status = PurchaseStatus.completed) &&
      p.paymentDetails.remainingAmount > 0 then
    Except.error "Remaining amount must be 0 when status is paid or completed"
  else
    let p :=
      if p.paymentDetails.paidAmount ≥ p.transactionSummary.totalAmount then
        if p.status = PurchaseStatus.ordered then
          { p with status := PurchaseStatus.paid }
        else p
      else p
    Except.ok p

/-- purchase.save() / Purchase.create: validation, then the two pre-save
hooks in registration order. -/
def savePurchase (p : Purchase) (today0 : ℤ) : Except String Purchase :=
  if purchaseValid p today0 then
    purchasePaymentHook (purchaseTotalsHook p)
  else
    Except.error "Purchase validation failed"

/-- The totalAmount the totals hook will store. -/
def purchaseRecomputedTotal (p : Purchase) : ℚ :=
  (p.items.map (fun i => i.quantity * i.unitCost)).sum
    + p.transactionSummary.tax + p.transactionSummary.shipping

/-! ## Purchase status route (src/unnamed/part_003, updatePurchaseStatus) -/

structure PurchaseState where
  purchases : List Purchase
deriving DecidableEq, Repr

/-- updatePurchaseStatus handler (part_003 lines 260-293): require a status
in the body, then findOneAndUpdate the owned purchase with the new status.
findOneAndUpdate runs no pre-save hooks; with runValidators only the enum
check of the updated status path applies, which the typed status already
guarantees. -/
def updatePurchaseStatus (st : PurchaseState) (uid pid : ℕ)
    (newStatus : Option PurchaseStatus) : Resp × PurchaseState :=
  match newStatus with
  | none => (Resp.failure 400 "Status is required", st)
  | some s =>
    match st.purchases.find? (fun p => p.id = pid && p.createdBy = uid) with
    | none => (Resp.failure 404 "Purchase not found", st)
    | some _ =>
      (Resp.success 200,
        { purchases := st.purchases.map (fun p =>
            if p.id = pid && p.createdBy = uid then { p with status := s } else p) })

/-! ## Supplier delete route (src/unnamed/part_002, deleteSupplier) -/

/-- The supplier document; only the fields the delete handler consults are
modelled. -/
structure Supplier where
  id : ℕ
  createdBy : ℕ
deriving DecidableEq, Repr

structure SupplierState where
  suppliers : List Supplier
  cheques : List Cheque
deriving DecidableEq, Repr

/-- The top-level `supplier` path of a persisted cheque document, as
consulted by the countDocuments filter of deleteSupplier. chequeSchema
declares no such path — the supplier reference lives at
relatedTransaction.supplierId — so under the default strict mode no
persisted cheque document carries the field and the projection is always
undefined. -/
def chequeTopSupplierField (_ : Cheque) : Option ℕ := none

/-- deleteSupplier handler (part_002 lines 193-228): count the cheques of
the caller whose top-level supplier field equals the target id, reject the
delete when any exist, otherwise findOneAndDelete the owned supplier. -/
def deleteSupplier (st : SupplierState) (uid sid : ℕ) : Resp × SupplierState :=
  let chequeCount := (st.cheques.filter (fun ch =>
    chequeTopSupplierField ch = some sid && ch.createdBy = uid)).length
  if chequeCount > 0 then
    (Resp.failure 400 ("Cannot delete supplier. There are " ++ toString chequeCount ++
      " cheques associated with this supplier."), st)
  else
    match st.suppliers.find? (fun s => s.id = sid && s.createdBy = uid) with
    | none => (Resp.failure 404 "Supplier not found", st)
    | some _ =>
      (Resp.success 204,
        { st with suppliers := st.suppliers.filter (fun s =>
            !(s.id = sid && s.createdBy = uid)) })

/-! ## Concrete documents used by the witnesses -/

/-- An active customer with creditLimit 10 and availableCredit 10. -/
def exCustC1 : Customer :=
  { id := 5, createdBy := 7
    creditProfile := { creditLimit := 10, availableCredit := 10 }
    status := CustomerStatus.active }

/-- A sale request asking for 20 of credit against exCustC1. -/
def exBodyC1 : Sale :=
  { id := 0, transactionId := "TX1", customerId := 5
    items := [{ quantity := 1, unitPrice := 20, totalPrice := 20 }]
    transactionSummary := { subtotal := 20, tax := 0, discount := 0, totalAmount := 20 }
    paymentDetails := { paymentMethod := PayMethod.credit, cashAmount := 0,
                        creditAmount := 20, dueDate := none }
    status := SaleStatus.pending, salesPerson := "A", createdBy := 7 }

def exStateC1 : SalesState := { customers := [exCustC1], sales := [] }

/-- A persisted sale that used 5 of credit of customer 99, who is no longer
in the store. -/
def exSaleC10 : Sale :=
  { id := 2, transactionId := "TX9", customerId := 99
    items := [{ quantity := 1, unitPrice := 5, totalPrice := 5 }]
    transactionSummary := { subtotal := 5, tax := 0, discount := 0, totalAmount := 5 }
    paymentDetails := { paymentMethod := PayMethod.credit, cashAmount := 0,
                        creditAmount := 5, dueDate := none }
    status := SaleStatus.pending, salesPerson := "A", createdBy := 7 }

def exStateC10 : SalesState := { customers := [exCustC1], sales := [exSaleC10] }

/-- A fresh cheque document as submitted to Cheque.create. -/
def exChequeC5 : Cheque :=
  { id := 3, chequeNumber := "CH5"
    relatedTransaction := { transactionType := TransactionType.purchase,
                            customerId := none, supplierId := some 3 }
    chequeDetails := { amount := 5, chequeDate := 0, clearanceDate := none }
    status := ChequeStatus.pending, statusHistory := []
    bankProcessing := { depositDate := none, clearanceDate := none,
                        bounceDate := none, bounceReason := none, bankCharges := 0 }
    createdBy := 7 }

/-- A persisted pending cheque with no bounceReason and no processing
dates. -/
def exChequeC6 : Cheque :=
  { id := 4, chequeNumber := "CH6"
    relatedTransaction := { transactionType := TransactionType.purchase,
                            customerId := none, supplierId := some 3 }
    chequeDetails := { amount := 5, chequeDate := 0, clearanceDate := none }
    status := ChequeStatus.pending
    statusHistory := [{ status := ChequeStatus.pending, date := 0, notes := "Cheque created" }]
    bankProcessing := { depositDate := none, clearanceDate := none,
                        bounceDate := none, bounceReason := none, bankCharges := 0 }
    createdBy := 7 }

/-- A persisted post-dated pending cheque: chequeDate 20 lies in the
future. -/
def exChequeC7 : Cheque :=
  { id := 5, chequeNumber := "CH7"
    relatedTransaction := { transactionType := TransactionType.purchase,
                            customerId := none, supplierId := some 3 }
    chequeDetails := { amount := 5, chequeDate := 20, clearanceDate := none }
    status := ChequeStatus.pending
    statusHistory := [{ status := ChequeStatus.pending, date := 0, notes := "Cheque created" }]
    bankProcessing := { depositDate := none, clearanceDate := none,
                        bounceDate := none, bounceReason := none, bankCharges := 0 }
    createdBy := 7 }

/-- The persisted result of clearing exChequeC7 at time 10. -/
def exChequeC7res : Cheque :=
  { id := 5, chequeNumber := "CH7"
    relatedTransaction := { transactionType := TransactionType.purchase,
                            customerId := none, supplierId := some 3 }
    chequeDetails := { amount := 5, chequeDate := 20, clearanceDate := some 10 }
    status := ChequeStatus.cleared
    statusHistory := [{ status := ChequeStatus.pending, date := 0, notes := "Cheque created" },
                      { status := ChequeStatus.cleared, date := 10,
                        notes := "Status changed to cleared" }]
    bankProcessing := { depositDate := none, clearanceDate := some 10,
                        bounceDate := none, bounceReason := none, bankCharges := 0 }
    createdBy := 7 }

/-- A sale request whose supplied totalAmount 100 matches the payment
amounts but not the item-derived total 50. -/
def exSaleC4 : Sale :=
  { id := 1, transactionId := "TX2", customerId := 5
    items := [{ quantity := 1, unitPrice := 50, totalPrice := 50 }]
    transactionSummary := { subtotal := 100, tax := 0, discount := 0, totalAmount := 100 }
    paymentDetails := { paymentMethod := PayMethod.cash, cashAmount := 100,
                        creditAmount := 0, dueDate := none }
    status := SaleStatus.pending, salesPerson := "A", createdBy := 7 }

/-- The persisted result of saving exSaleC4: the totals hook overwrote
subtotal and totalAmount with the item-derived values. -/
def exSaleC4res : Sale :=
  { id := 1, transactionId := "TX2", customerId := 5
    items := [{ quantity := 1, unitPrice := 50, totalPrice := 50 }]
    transactionSummary := { subtotal := 50, tax := 0, discount := 0, totalAmount := 50 }
    paymentDetails := { paymentMethod := PayMethod.cash, cashAmount := 100,
                        creditAmount := 0, dueDate := none }
    status := SaleStatus.pending, salesPerson := "A", createdBy := 7 }

/-- A sale request whose supplied totalAmount agrees with the item-derived
total. -/
def exSaleC4w : Sale :=
  { id := 1, transactionId := "TX3", customerId := 5
    items := [{ quantity := 1, unitPrice := 50, totalPrice := 50 }]
    transactionSummary := { subtotal := 50, tax := 0, discount := 0, totalAmount := 50 }
    paymentDetails := { paymentMethod := PayMethod.cash, cashAmount := 50,
                        creditAmount := 0, dueDate := none }
    status := SaleStatus.pending, salesPerson := "A", createdBy := 7 }

/-- An ordered purchase with totalAmount 100, paidAmount 50 and
remainingAmount 50. -/
def exPurchC8 : Purchase :=
  { id := 1, purchaseOrderId := "PO1", supplierId := 3
    items := [{ quantity := 1, unitCost := 100, totalCost := 100 }]
    transactionSummary := { subtotal := 100, tax := 0, shipping := 0, totalAmount := 100 }
    paymentDetails := { paymentMethod := PurchasePayMethod.cash, paidAmount := 50,
                        remainingAmount := 50, dueDate := none }
    deliveryInfo := { expectedDate := 0, actualDate := none,
                      deliveryStatus := DeliveryStatus.pending }
    status := PurchaseStatus.ordered, createdBy := 7 }

/-- An ordered purchase fully paid up, as submitted to the save pipeline. -/
def exPurchC8w : Purchase :=
  { id := 2, purchaseOrderId := "PO2", supplierId := 3
    items := [{ quantity := 1, unitCost := 100, totalCost := 100 }]
    transactionSummary := { subtotal := 100, tax := 0, shipping := 0, totalAmount := 100 }
    paymentDetails := { paymentMethod := PurchasePayMethod.cash, paidAmount := 100,
                        remainingAmount := 0, dueDate := none }
    deliveryInfo := { expectedDate := 0, actualDate := none,
                      deliveryStatus := DeliveryStatus.pending }
    status := PurchaseStatus.ordered, createdBy := 7 }

/-- A cheque of owner 7 whose relatedTransaction references supplier 3. -/
def exChequeC9 : Cheque :=
  { id := 6, chequeNumber := "CH9"
    relatedTransaction := { transactionType := TransactionType.purchase,
                            customerId := none, supplierId := some 3 }
    chequeDetails := { amount := 5, chequeDate := 0, clearanceDate := none }
    status := ChequeStatus.pending
    statusHistory := [{ status := ChequeStatus.pending, date := 0, notes := "Cheque created" }]
    bankProcessing := { depositDate := none, clearanceDate := none,
                        bounceDate := none, bounceReason := none, bankCharges := 0 }
    createdBy := 7 }

def exSupStateC9 : SupplierState :=
  { suppliers := [{ id := 3, createdBy := 7 }], cheques := [exChequeC9] }

/-- The customer of the round-trip scenario: creditLimit 10000,
availableCredit 10000. -/
def exCustC2 : Customer :=
  { id := 5, createdBy := 7
    creditProfile := { creditLimit := 10000, availableCredit := 10000 }
    status := CustomerStatus.active }

/-- The sale request of the round-trip scenario: 5000 of credit. -/
def exBodyC2 : Sale :=
  { id := 0, transactionId := "TX5", customerId := 5
    items := [{ quantity := 1, unitPrice := 5000, totalPrice := 5000 }]
    transactionSummary := { subtotal := 5000, tax := 0, discount := 0, totalAmount := 5000 }
    paymentDetails := { paymentMethod := PayMethod.credit, cashAmount := 0,
                        creditAmount := 5000, dueDate := none }
    status := SaleStatus.pending, salesPerson := "A", createdBy := 7 }

/-! ## Theorems -/

/-- The constant cent is the rational 1/100. -/
theorem cent_eq : cent = 1/100 := by
  rw [cent, Rat.mk'_eq_divInt, Rat.divInt_eq_div]
  norm_num

/-- C3: for every Customer persist that succeeds, the persisted
availableCredit is at most creditLimit; a larger upstream value is clamped
by the pre-save hook, not rejected. -/
theorem C3_persisted_availableCredit_le_creditLimit (c c' : Customer)
    (h : saveCustomer c = Except.ok c') :
    c'.creditProfile.availableCredit ≤ c'.creditProfile.creditLimit := by
  unfold saveCustomer at h
  split at h
  · simp only [Except.ok.injEq] at h
    subst h
    unfold customerClampHook
    split
    · simp
    · next hle => simpa using le_of_not_lt hle
  · exact absurd h (by simp)

/-- C3 witness: a customer whose availableCredit 150 exceeds its
creditLimit 100 is persisted with availableCredit 100 ≤ 100. -/
theorem C3_witness :
    ∃ c' : Customer,
      saveCustomer
        { id := 1, createdBy := 1
          creditProfile := { creditLimit := 100, availableCredit := 150 }
          status := CustomerStatus.active } = Except.ok c' ∧
      c'.creditProfile.availableCredit ≤ c'.creditProfile.creditLimit := by
  refine ⟨{ id := 1, createdBy := 1
            creditProfile := { creditLimit := 100, availableCredit := 100 }
            status := CustomerStatus.active }, ?_, ?_⟩
  · rfl
  · exact C3_persisted_availableCredit_le_creditLimit
      { id := 1, createdBy := 1
        creditProfile := { creditLimit := 100, availableCredit := 150 }
        status := CustomerStatus.active } _ (by rfl)

/-- C1: a create-sale request whose creditAmount exceeds the referenced
(active, owned) customer availableCredit gets an error response and leaves
the store — customers and sales alike — unchanged. -/
theorem C1_create_sale_over_credit_rejected (st : SalesState) (uid : ℕ)
    (body : Sale) (newId : ℕ) (now : ℤ) (cust : Customer)
    (hfind : st.customers.find? (fun c =>
        c.id = body.customerId && c.createdBy = uid &&
        c.status = CustomerStatus.active) = some cust)
    (hac : 0 ≤ cust.creditProfile.availableCredit)
    (hover : body.paymentDetails.creditAmount > cust.creditProfile.availableCredit) :
    (createSale st uid body newId now).1.isFailure = true ∧
    (createSale st uid body newId now).2 = st := by
  have hpos : body.paymentDetails.creditAmount > 0 := lt_of_le_of_lt hac hover
  cases hdup : st.sales.find? (fun s =>
      s.transactionId = body.transactionId && s.createdBy = uid) with
  | some s =>
    constructor <;> simp [createSale, Resp.isFailure, hfind, hdup]
  | none =>
    constructor <;> simp [createSale, Resp.isFailure, hfind, hdup, hpos, hover]

/-- C1 witness: requesting 20 of credit from a customer with availableCredit
10 fails and leaves the store unchanged. -/
theorem C1_witness :
    (createSale exStateC1 7 exBodyC1 9 0).1.isFailure = true ∧
    (createSale exStateC1 7 exBodyC1 9 0).2 = exStateC1 :=
  C1_create_sale_over_credit_rejected exStateC1 7 exBodyC1 9 0 exCustC1
    (by decide) (by decide) (by decide)

/-- C10: deleting an owned sale whose creditAmount is 0, or whose
referenced customer no longer exists, still deletes the sale and answers
204, and modifies no customer document. -/
theorem C10_delete_sale_frame (st : SalesState) (uid saleId : ℕ) (sale : Sale)
    (hfind : st.sales.find? (fun s => s.id = saleId && s.createdBy = uid) = some sale)
    (hcase : sale.paymentDetails.creditAmount = 0 ∨
      st.customers.find? (fun c => c.id = sale.customerId) = none) :
    deleteSale st uid saleId =
      (Resp.success 204,
        { customers := st.customers
          sales := st.sales.filter (fun s => s.id ≠ saleId) }) := by
  cases hcase with
  | inl h0 => simp [deleteSale, hfind, h0]
  | inr hn =>
    by_cases hc : sale.paymentDetails.creditAmount > 0
    · simp [deleteSale, hfind, hn, hc]
    · simp [deleteSale, hfind, hc]

/-- C10 witness: a sale that used 5 of credit of a customer absent from the
store is deleted with a 204 response and the customer list is untouched. -/
theorem C10_witness :
    deleteSale exStateC10 7 2 =
      (Resp.success 204,
        { customers := exStateC10.customers
          sales := exStateC10.sales.filter (fun s => s.id ≠ 2) }) :=
  C10_delete_sale_frame exStateC10 7 2 exSaleC10 (by decide) (Or.inr (by decide))

/-- The status-history hook touches only statusHistory. -/
theorem chequeHistoryHook_fields (c : Cheque) (sm isNew : Bool) (now : ℤ) :
    (chequeHistoryHook c sm isNew now).status = c.status ∧
    (chequeHistoryHook c sm isNew now).chequeDetails = c.chequeDetails ∧
    (chequeHistoryHook c sm isNew now).bankProcessing = c.bankProcessing := by
  unfold chequeHistoryHook
  split_ifs <;> exact ⟨rfl, rfl, rfl⟩

/-- The processing-dates hook touches neither status nor statusHistory. -/
theorem chequeDatesHook_preserves (c : Cheque) (sm : Bool) (now : ℤ) :
    (chequeDatesHook c sm now).status = c.status ∧
    (chequeDatesHook c sm now).statusHistory = c.statusHistory := by
  obtain ⟨i, n, rt, cd, status, hist, bp, cb⟩ := c
  unfold chequeDatesHook
  cases sm
  · exact ⟨rfl, rfl⟩
  · cases status <;> dsimp <;>
      first
        | (split_ifs <;> exact ⟨rfl, rfl⟩)
        | exact ⟨rfl, rfl⟩

/-- C5: a successful cheque creation appends exactly one history entry with
notes "Cheque created" carrying the cheque status; immediately afterwards
statusHistory is non-empty and its last entry status equals the cheque
status field, whatever initial status the caller supplied. -/
theorem C5_creation_seeds_status_history (c c' : Cheque) (now : ℤ)
    (h : createChequeDoc c now = Except.ok c') :
    c'.statusHistory = c.statusHistory ++
      [{ status := c.status, date := now, notes := "Cheque created" }] ∧
    c'.statusHistory ≠ [] ∧
    (c'.statusHistory.getLast?).map StatusHistoryEntry.status = some c'.status := by
  unfold createChequeDoc saveCheque at h
  split at h
  · simp only [Except.ok.injEq] at h
    subst h
    obtain ⟨hs, hh⟩ := chequeDatesHook_preserves (chequeHistoryHook c true true now) true now
    obtain ⟨hs2, -, -⟩ := chequeHistoryHook_fields c true true now
    rw [hh, hs, hs2]
    unfold chequeHistoryHook
    simp [List.getLast?_concat]
  · exact absurd h (by simp)

/-- C5 witness: creating a pending cheque with empty history yields the
single seeded entry whose status matches. -/
theorem C5_witness :
    ({ exChequeC5 with statusHistory :=
        [{ status := ChequeStatus.pending, date := 11, notes := "Cheque created" }] } :
      Cheque).statusHistory = exChequeC5.statusHistory ++
        [{ status := exChequeC5.status, date := 11, notes := "Cheque created" }] ∧
    ({ exChequeC5 with statusHistory :=
        [{ status := ChequeStatus.pending, date := 11, notes := "Cheque created" }] } :
      Cheque).statusHistory ≠ [] ∧
    (({ exChequeC5 with statusHistory :=
        [{ status := ChequeStatus.pending, date := 11, notes := "Cheque created" }] } :
      Cheque).statusHistory.getLast?).map StatusHistoryEntry.status =
      some ({ exChequeC5 with statusHistory :=
        [{ status := ChequeStatus.pending, date := 11, notes := "Cheque created" }] } :
      Cheque).status :=
  C5_creation_seeds_status_history exChequeC5 _ 11 (by rfl)

/-- C6: the code refutes the claimed rejection — transitioning a cheque to
bounced with no bounceReason anywhere succeeds (the conditional validator
is skipped on the undefined value) and persists the bounced cheque without
a reason, setting bounceDate; supplying a reason also succeeds and sets
bounceDate. -/
theorem C6_bounced_without_reason_persists :
    (∃ c' : Cheque,
      chequeStatusUpdate exChequeC6 ChequeStatus.bounced none none 10 = Except.ok c' ∧
      c'.status = ChequeStatus.bounced ∧
      c'.bankProcessing.bounceReason = none ∧
      c'.bankProcessing.bounceDate = some 10) ∧
    (∃ c' : Cheque,
      chequeStatusUpdate exChequeC6 ChequeStatus.bounced (some "Insufficient funds") none 10 =
        Except.ok c' ∧
      c'.bankProcessing.bounceReason = some "Insufficient funds" ∧
      c'.bankProcessing.bounceDate = some 10) :=
  ⟨⟨_, rfl, rfl, rfl, rfl⟩, ⟨_, rfl, rfl, rfl⟩⟩

/-- C7 counterexample: clearing a post-dated cheque before its chequeDate
persists a clearanceDate strictly earlier than chequeDate, so the claimed
persisted-state bound fails. -/
theorem C7_counterexample :
    ∃ c' : Cheque,
      chequeStatusUpdate exChequeC7 ChequeStatus.cleared none none 10 = Except.ok c' ∧
      ∃ d : ℤ, c'.chequeDetails.clearanceDate = some d ∧
        d < c'.chequeDetails.chequeDate :=
  ⟨_, rfl, 10, rfl, by decide⟩

/-- A successful cheque save implies the document passed schema
validation. -/
theorem saveCheque_ok_valid (c1 : Cheque) (sm isNew : Bool) (now : ℤ)
    (c' : Cheque) (h : saveCheque c1 sm isNew now = Except.ok c') :
    chequeValid c1 = true := by
  unfold saveCheque at h
  split at h
  · assumption
  · exact absurd h (by simp)

/-- A valid cheque carrying a clearance date has it no earlier than its
chequeDate. -/
theorem chequeValid_clearance (x : Cheque) (d : ℤ)
    (hx : chequeValid x = true)
    (hcl : x.chequeDetails.clearanceDate = some d) :
    ¬(d < x.chequeDetails.chequeDate) := by
  unfold chequeValid at hx
  rw [hcl] at hx
  simp only [Bool.and_eq_true] at hx
  have h3 := hx.1.1.1.1.2
  simp only [optValid] at h3
  simpa using h3

/-- On a cheque in status cleared with the status path modified, the dates
hook fills each unset clearance date with now. -/
theorem chequeDatesHook_cleared (x : Cheque) (now : ℤ)
    (hst : x.status = ChequeStatus.cleared) :
    (x.bankProcessing.clearanceDate = none →
      (chequeDatesHook x true now).bankProcessing.clearanceDate = some now) ∧
    (x.chequeDetails.clearanceDate = none →
      (chequeDatesHook x true now).chequeDetails.clearanceDate = some now) := by
  obtain ⟨i, n, rt, ⟨am, cd, cld⟩, status, hist, ⟨dd, bcl, bd, br, bc⟩, cb⟩ := x
  dsimp at hst
  subst hst
  unfold chequeDatesHook
  cases bcl <;> cases cld <;> simp

/-- A successful save of a modified existing cheque in status cleared fills
each clearance date that was unset with now. -/
theorem saveCheque_cleared_sets (c1 : Cheque) (now : ℤ) (c' : Cheque)
    (hst : c1.status = ChequeStatus.cleared)
    (h : saveCheque c1 true false now = Except.ok c') :
    (c1.bankProcessing.clearanceDate = none →
      c'.bankProcessing.clearanceDate = some now) ∧
    (c1.chequeDetails.clearanceDate = none →
      c'.chequeDetails.clearanceDate = some now) := by
  unfold saveCheque at h
  split at h
  · simp only [Except.ok.injEq] at h
    subst h
    obtain ⟨hs2, hcd2, hbp2⟩ := chequeHistoryHook_fields c1 true false now
    obtain ⟨h1, h2⟩ := chequeDatesHook_cleared (chequeHistoryHook c1 true false now)
      now (hs2.trans hst)
    exact ⟨fun hbk => h1 (hbp2.symm ▸ hbk), fun hcd => h2 (hcd2.symm ▸ hcd)⟩
  · exact absurd h (by simp)

/-- C7 (amended): a transition to cleared on a cheque whose clearance dates
are unset sets both chequeDetails.clearanceDate and
bankProcessing.clearanceDate to now, and a clearanceDate explicitly
supplied with the update is rejected when earlier than chequeDate; the
clearance date the transition itself fills in is not checked against
chequeDate, so for a post-dated cheque the persisted clearanceDate may
precede chequeDate. -/
theorem C7_cleared_transition_dates (c : Cheque) (ns : ChequeStatus)
    (r : Option String) (cl : Option ℤ) (now : ℤ) (c' : Cheque)
    (h : chequeStatusUpdate c ns r cl now = Except.ok c') :
    (ns = ChequeStatus.cleared → ns ≠ c.status →
      (c.bankProcessing.clearanceDate = none →
        c'.bankProcessing.clearanceDate = some now) ∧
      (cl = none → c.chequeDetails.clearanceDate = none →
        c'.chequeDetails.clearanceDate = some now)) ∧
    (∀ d : ℤ, cl = some d → ¬(d < c.chequeDetails.chequeDate)) := by
  unfold chequeStatusUpdate at h
  constructor
  · intro hns hne
    have hsm : decide (ns ≠ c.status) = true := decide_eq_true hne
    rw [hsm] at h
    have hfill := saveCheque_cleared_sets _ now c' (by simpa using hns) h
    constructor
    · intro hbk
      exact hfill.1 hbk
    · intro hcl hcd
      subst hcl
      exact hfill.2 hcd
  · intro d hcl hlt
    subst hcl
    have hv := saveCheque_ok_valid _ _ _ _ _ h
    have hcontra := chequeValid_clearance _ d hv rfl
    exact absurd hlt hcontra

/-- C7 witness: clearing the pending cheque exChequeC7 at time 10 sets both
clearance dates, and no explicitly supplied clearance date was involved. -/
theorem C7_witness :
    (ChequeStatus.cleared = ChequeStatus.cleared →
      ChequeStatus.cleared ≠ exChequeC7.status →
      (exChequeC7.bankProcessing.clearanceDate = none →
        exChequeC7res.bankProcessing.clearanceDate = some 10) ∧
      ((none : Option ℤ) = none → exChequeC7.chequeDetails.clearanceDate = none →
        exChequeC7res.chequeDetails.clearanceDate = some 10)) ∧
    (∀ d : ℤ, (none : Option ℤ) = some d →
      ¬(d < exChequeC7.chequeDetails.chequeDate)) :=
  C7_cleared_transition_dates exChequeC7 ChequeStatus.cleared none none 10
    exChequeC7res (by rfl)

/-- C4 counterexample: the save of exSaleC4 succeeds, yet in the persisted
document the cash plus credit amounts differ from totalAmount by 50: the
payment check ran against the caller-supplied totalAmount before the totals
hook recomputed it from the items. -/
theorem C4_counterexample :
    ∃ s' : Sale, saveSale exSaleC4 0 = Except.ok s' ∧
      jsAbs (s'.paymentDetails.cashAmount + s'.paymentDetails.creditAmount
        - s'.transactionSummary.totalAmount) > cent := by
  refine ⟨exSaleC4res, ?_, ?_⟩
  · norm_num [saveSale, saleValid, salePaymentHook, saleTotalsHook, optValid,
      jsAbs, cent_eq, exSaleC4, exSaleC4res]
    all_goals decide
  · norm_num [jsAbs, cent_eq, exSaleC4res]

/-- A successful run of the payment pre-save hook leaves every field except
paymentMethod unchanged and certifies that cash plus credit matched the
totalAmount seen at entry within 0.01. -/
theorem salePaymentHook_ok_fields (s s1 : Sale)
    (h : salePaymentHook s = Except.ok s1) :
    s1.paymentDetails.cashAmount = s.paymentDetails.cashAmount ∧
    s1.paymentDetails.creditAmount = s.paymentDetails.creditAmount ∧
    s1.items = s.items ∧
    s1.transactionSummary = s.transactionSummary ∧
    jsAbs (s.paymentDetails.cashAmount + s.paymentDetails.creditAmount
      - s.transactionSummary.totalAmount) ≤ cent := by
  unfold salePaymentHook at h
  dsimp only at h
  split at h
  · exact absurd h (by simp)
  · next hle =>
    simp only [Except.ok.injEq] at h
    subst h
    refine ⟨?_, ?_, rfl, rfl, ?_⟩
    · split_ifs <;> rfl
    · split_ifs <;> rfl
    · exact not_lt.mp hle

/-- The totals pre-save hook leaves paymentDetails unchanged and stores the
item-derived totalAmount. -/
theorem saleTotalsHook_fields (s : Sale) :
    (saleTotalsHook s).paymentDetails = s.paymentDetails ∧
    (saleTotalsHook s).transactionSummary.totalAmount = recomputedTotal s := by
  unfold saleTotalsHook recomputedTotal
  refine ⟨rfl, ?_⟩
  dsimp
  rw [List.map_map]
  rfl

/-- C4 (amended): a successful sale save certifies that cash plus credit
matched the totalAmount seen at entry to the save within 0.01; the totals
hook then overwrites totalAmount with the item-derived total, so the
persisted document satisfies the payment identity whenever the supplied
totalAmount agreed with the recomputed one. -/
theorem C4_payment_total_check (s s' : Sale) (now : ℤ)
    (h : saveSale s now = Except.ok s') :
    jsAbs (s.paymentDetails.cashAmount + s.paymentDetails.creditAmount
      - s.transactionSummary.totalAmount) ≤ cent ∧
    (s.transactionSummary.totalAmount = recomputedTotal s →
      jsAbs (s'.paymentDetails.cashAmount + s'.paymentDetails.creditAmount
        - s'.transactionSummary.totalAmount) ≤ cent) := by
  unfold saveSale at h
  split at h
  · cases hp : salePaymentHook s with
    | error e => rw [hp] at h; exact absurd h (by simp)
    | ok s1 =>
      rw [hp] at h
      simp only [Except.ok.injEq] at h
      subst h
      obtain ⟨hc, hcr, hi, hts, hle⟩ := salePaymentHook_ok_fields s s1 hp
      refine ⟨hle, ?_⟩
      intro heq
      obtain ⟨hpd, htot⟩ := saleTotalsHook_fields s1
      rw [hpd, hc, hcr, htot]
      have hrec : recomputedTotal s1 = recomputedTotal s := by
        unfold recomputedTotal
        rw [hi, hts]
      rw [hrec, ← heq]
      exact hle
  · exact absurd h (by simp)

/-- C4 witness: a sale whose supplied totalAmount agrees with the
item-derived total passes the check and keeps the payment identity after
the save. -/
theorem C4_witness :
    jsAbs (exSaleC4w.paymentDetails.cashAmount + exSaleC4w.paymentDetails.creditAmount
      - exSaleC4w.transactionSummary.totalAmount) ≤ cent ∧
    (exSaleC4w.transactionSummary.totalAmount = recomputedTotal exSaleC4w →
      jsAbs (exSaleC4w.paymentDetails.cashAmount + exSaleC4w.paymentDetails.creditAmount
        - exSaleC4w.transactionSummary.totalAmount) ≤ cent) :=
  C4_payment_total_check exSaleC4w exSaleC4w 0
    (by
      norm_num [saveSale, saleValid, salePaymentHook, saleTotalsHook, optValid,
        jsAbs, cent_eq, exSaleC4w]
      all_goals decide)

/-- C8 counterexample: the status route persists a paid purchase with a
positive remainingAmount — findOneAndUpdate bypasses the pre-save hooks, so
the write is answered with 200 instead of being rejected and no
auto-promotion logic runs on such writes. -/
theorem C8_counterexample :
    updatePurchaseStatus { purchases := [exPurchC8] } 7 1 (some PurchaseStatus.paid) =
      (Resp.success 200,
        { purchases := [{ exPurchC8 with status := PurchaseStatus.paid }] }) ∧
    ({ exPurchC8 with status := PurchaseStatus.paid } : Purchase).status =
      PurchaseStatus.paid ∧
    ({ exPurchC8 with status := PurchaseStatus.paid } :
      Purchase).paymentDetails.remainingAmount > 0 := by
  refine ⟨rfl, rfl, ?_⟩
  decide

/-- The totals pre-save hook of purchaseSchema: status and paidAmount are
untouched, totalAmount becomes the item-derived total, and remainingAmount
becomes the recomputed total minus paidAmount floored at 0. -/
theorem purchaseTotalsHook_fields (p : Purchase) :
    (purchaseTotalsHook p).status = p.status ∧
    (purchaseTotalsHook p).paymentDetails.paidAmount = p.paymentDetails.paidAmount ∧
    (purchaseTotalsHook p).transactionSummary.totalAmount = purchaseRecomputedTotal p ∧
    (purchaseTotalsHook p).paymentDetails.remainingAmount =
      (if purchaseRecomputedTotal p - p.paymentDetails.paidAmount < 0 then 0
       else purchaseRecomputedTotal p - p.paymentDetails.paidAmount) := by
  unfold purchaseTotalsHook purchaseRecomputedTotal
  refine ⟨rfl, rfl, ?_, ?_⟩
  · dsimp
    rw [List.map_map]
    rfl
  · dsimp
    rw [List.map_map]
    rfl

/-- C8 (amended): writes that go through the purchase save pipeline enforce
the invariant — on success a persisted status of paid or completed comes
with remainingAmount 0, and an ordered purchase whose paidAmount reaches
the recomputed totalAmount is auto-promoted to paid; the status route
(findOneAndUpdate) bypasses these hooks, as the counterexample shows. -/
theorem C8_save_enforces_payment_invariant (p p' : Purchase) (today0 : ℤ)
    (h : savePurchase p today0 = Except.ok p') :
    ((p'.status = PurchaseStatus.paid ∨ p'.status = PurchaseStatus.completed) →
      p'.paymentDetails.remainingAmount = 0) ∧
    (p.status = PurchaseStatus.ordered →
      p.paymentDetails.paidAmount ≥ purchaseRecomputedTotal p →
      p'.status = PurchaseStatus.paid) := by
  unfold savePurchase at h
  split at h
  · obtain ⟨hst, hpaid, htot, hrem⟩ := purchaseTotalsHook_fields p
    set q := purchaseTotalsHook p with hq
    unfold purchasePaymentHook at h
    split at h
    · exact absurd h (by simp)
    · next hnot =>
      simp only [Bool.and_eq_true, Bool.or_eq_true, decide_eq_true_eq, not_and,
        not_lt] at hnot
      simp only [Except.ok.injEq] at h
      subst h
      have hrge : (0 : ℚ) ≤ q.paymentDetails.remainingAmount := by
        rw [hrem]
        split
        · exact le_refl 0
        · next hneg => exact le_of_not_lt hneg
      constructor
      · intro hps
        split_ifs at hps ⊢ with h1 h2
        · show q.paymentDetails.remainingAmount = 0
          rw [htot, hpaid] at h1
          rw [hrem]
          split
          · rfl
          · next hneg =>
            have : purchaseRecomputedTotal p - p.paymentDetails.paidAmount ≤ 0 := by
              linarith
            linarith [le_of_not_lt hneg]
        · exact le_antisymm (hnot (by simpa using hps)) hrge
        · exact le_antisymm (hnot (by simpa using hps)) hrge
      · intro hord hge
        split_ifs with h1 h2
        · rfl
        · exact absurd (hst.trans hord) h2
        · rw [htot, hpaid] at h1
          exact absurd hge h1
  · exact absurd h (by simp)

/-- C8 witness: saving a fully paid ordered purchase promotes it to paid
with remainingAmount 0. -/
theorem C8_witness :
    ((({ exPurchC8w with status := PurchaseStatus.paid } : Purchase).status =
        PurchaseStatus.paid ∨
      ({ exPurchC8w with status := PurchaseStatus.paid } : Purchase).status =
        PurchaseStatus.completed) →
      ({ exPurchC8w with status := PurchaseStatus.paid } :
        Purchase).paymentDetails.remainingAmount = 0) ∧
    (exPurchC8w.status = PurchaseStatus.ordered →
      exPurchC8w.paymentDetails.paidAmount ≥ purchaseRecomputedTotal exPurchC8w →
      ({ exPurchC8w with status := PurchaseStatus.paid } : Purchase).status =
        PurchaseStatus.paid) :=
  C8_save_enforces_payment_invariant exPurchC8w
    { exPurchC8w with status := PurchaseStatus.paid } 0
    (by
      norm_num [savePurchase, purchaseValid, purchaseTotalsHook,
        purchasePaymentHook, optValid, cent_eq, exPurchC8w]
      all_goals decide)

/-- C9: the code refutes the claimed delete guard — the countDocuments
filter consults a top-level supplier path that the Cheque schema does not
declare, so it counts 0 even when a cheque of the same owner references the
supplier through relatedTransaction.supplierId, and the supplier is deleted
with a 204 response. -/
theorem C9_supplier_delete_guard_never_fires :
    exChequeC9.relatedTransaction.supplierId = some 3 ∧
    exChequeC9.createdBy = 7 ∧
    deleteSupplier exSupStateC9 7 3 =
      (Resp.success 204, { suppliers := [], cheques := [exChequeC9] }) :=
  ⟨rfl, rfl, rfl⟩

/-- The payment hook only rewrites paymentMethod, so identifiers survive. -/
theorem salePaymentHook_ok_ids (s s1 : Sale)
    (h : salePaymentHook s = Except.ok s1) :
    s1.id = s.id ∧ s1.createdBy = s.createdBy ∧ s1.customerId = s.customerId := by
  unfold salePaymentHook at h
  dsimp only at h
  split at h
  · exact absurd h (by simp)
  · simp only [Except.ok.injEq] at h
    subst h
    exact ⟨rfl, rfl, rfl⟩

/-- The totals hook leaves the identifiers untouched. -/
theorem saleTotalsHook_ids (s : Sale) :
    (saleTotalsHook s).id = s.id ∧ (saleTotalsHook s).createdBy = s.createdBy ∧
    (saleTotalsHook s).customerId = s.customerId :=
  ⟨rfl, rfl, rfl⟩

/-- C2: on a store holding one active owned customer (availableCredit ac,
creditLimit cl) and no sales, creating a valid sale with creditAmount c
(0 ≤ c ≤ ac, ac - c ≤ cl) succeeds and leaves the customer with
availableCredit ac - c; deleting that same sale then succeeds and leaves
the customer with availableCredit min ac cl — the original value clamped to
the credit limit. -/
theorem C2_create_then_delete_roundtrip
    (cust : Customer) (body : Sale) (uid newId : ℕ) (now : ℤ)
    (hid : cust.id = body.customerId)
    (huid : cust.createdBy = uid)
    (hactive : cust.status = CustomerStatus.active)
    (hc0 : 0 ≤ body.paymentDetails.creditAmount)
    (hca : body.paymentDetails.creditAmount ≤ cust.creditProfile.availableCredit)
    (hlim : cust.creditProfile.availableCredit - body.paymentDetails.creditAmount ≤
      cust.creditProfile.creditLimit)
    (hvalid : saleValid body now = true)
    (hpm : jsAbs (body.paymentDetails.cashAmount + body.paymentDetails.creditAmount
      - body.transactionSummary.totalAmount) ≤ cent) :
    ∃ sale : Sale,
      createSale { customers := [cust], sales := [] } uid body newId now =
        (Resp.success 201,
          { customers := [{ cust with creditProfile := { cust.creditProfile with
              availableCredit := cust.creditProfile.availableCredit
                - body.paymentDetails.creditAmount } }],
            sales := [sale] }) ∧
      deleteSale
        { customers := [{ cust with creditProfile := { cust.creditProfile with
            availableCredit := cust.creditProfile.availableCredit
              - body.paymentDetails.creditAmount } }],
          sales := [sale] } uid newId =
        (Resp.success 204,
          { customers := [{ cust with creditProfile := { cust.creditProfile with
              availableCredit := min cust.creditProfile.availableCredit
                cust.creditProfile.creditLimit } }],
            sales := [] }) := by
  have hv2 : saleValid { body with id := newId, createdBy := uid } now = true := hvalid
  cases hp : salePaymentHook { body with id := newId, createdBy := uid } with
  | error e =>
    exfalso
    unfold salePaymentHook at hp
    dsimp only at hp
    rw [if_neg (not_lt.mpr hpm)] at hp
    cases hp
  | ok s1 =>
    obtain ⟨hcash1, hcred1, hitems1, hsum1, -⟩ := salePaymentHook_ok_fields _ s1 hp
    obtain ⟨hid1, hcb1, hcid1⟩ := salePaymentHook_ok_ids _ s1 hp
    obtain ⟨hpd2, -⟩ := saleTotalsHook_fields s1
    obtain ⟨hid2, hcb2, hcid2⟩ := saleTotalsHook_ids s1
    have hsave : saveSale { body with id := newId, createdBy := uid } now =
        Except.ok (saleTotalsHook s1) := by
      unfold saveSale
      rw [hv2, hp]
      rfl
    have hsalecred : (saleTotalsHook s1).paymentDetails.creditAmount =
        body.paymentDetails.creditAmount := by
      rw [hpd2, hcred1]
    have hsaleid : (saleTotalsHook s1).id = newId := by rw [hid2, hid1]
    have hsalecb : (saleTotalsHook s1).createdBy = uid := by rw [hcb2, hcb1]
    have hsalecid : (saleTotalsHook s1).customerId = body.customerId := by
      rw [hcid2, hcid1]
    have hfind1 : ([cust].find? (fun c => c.id = body.customerId &&
        c.createdBy = uid && c.status = CustomerStatus.active)) = some cust := by
      simp [List.find?, hid, huid, hactive]
    have hnc : (decide (body.paymentDetails.creditAmount >
        cust.creditProfile.availableCredit)) = false :=
      decide_eq_false (not_lt.mpr hca)
    have hfinds : ([saleTotalsHook s1].find?
        (fun s => s.id = newId && s.createdBy = uid)) = some (saleTotalsHook s1) := by
      simp [List.find?, hsaleid, hsalecb]
    refine ⟨saleTotalsHook s1, ?_, ?_⟩
    · -- the create step
      by_cases hcpos : body.paymentDetails.creditAmount > 0
      · have hvc : customerValid { cust with creditProfile := { cust.creditProfile with
            availableCredit := cust.creditProfile.availableCredit
              - body.paymentDetails.creditAmount } } = true := by
          simp only [customerValid, Bool.and_eq_true, decide_eq_true_eq]
          constructor
          · show (0 : ℚ) ≤ cust.creditProfile.creditLimit
            linarith
          · show (0 : ℚ) ≤ cust.creditProfile.availableCredit
              - body.paymentDetails.creditAmount
            linarith
        have hsavec : saveCustomer { cust with creditProfile := { cust.creditProfile with
            availableCredit := cust.creditProfile.availableCredit
              - body.paymentDetails.creditAmount } } =
            Except.ok { cust with creditProfile := { cust.creditProfile with
              availableCredit := cust.creditProfile.availableCredit
                - body.paymentDetails.creditAmount } } := by
          unfold saveCustomer customerClampHook
          rw [hvc, if_neg (not_lt.mpr hlim)]
          rfl
        simp [createSale, hfind1, hnc, hsave, hsalecred, hcpos, hsavec, putCustomer]
      · have hceq : body.paymentDetails.creditAmount = 0 :=
          le_antisymm (not_lt.mp hcpos) hc0
        simp [createSale, hfind1, hnc, hsave, hsalecred, hceq, putCustomer]
    · -- the delete step
      by_cases hcpos : body.paymentDetails.creditAmount > 0
      · have hfindc : ([{ cust with creditProfile := { cust.creditProfile with
            availableCredit := cust.creditProfile.availableCredit
              - body.paymentDetails.creditAmount } }] : List Customer).find?
            (fun k => k.id = (saleTotalsHook s1).customerId) =
            some { cust with creditProfile := { cust.creditProfile with
              availableCredit := cust.creditProfile.availableCredit
                - body.paymentDetails.creditAmount } } := by
          simp [List.find?, hsalecid, hid]
        have hvcust : customerValid cust = true := by
          simp only [customerValid, Bool.and_eq_true, decide_eq_true_eq]
          constructor
          · show (0 : ℚ) ≤ cust.creditProfile.creditLimit
            linarith
          · show (0 : ℚ) ≤ cust.creditProfile.availableCredit
            linarith
        have hsavec3 : saveCustomer cust =
            Except.ok { cust with creditProfile := { cust.creditProfile with
              availableCredit := min cust.creditProfile.availableCredit
                cust.creditProfile.creditLimit } } := by
          unfold saveCustomer customerClampHook
          rw [hvcust]
          by_cases hover : cust.creditProfile.availableCredit >
              cust.creditProfile.creditLimit
          · rw [if_pos hover, min_eq_right (le_of_lt hover)]
            rfl
          · rw [if_neg hover, min_eq_left (not_lt.mp hover)]
            rfl
        simp [deleteSale, hfinds, hsalecred, hcpos, hfindc, hsavec3, putCustomer,
          List.filter, hsaleid]
      · have hceq : body.paymentDetails.creditAmount = 0 :=
          le_antisymm (not_lt.mp hcpos) hc0
        have hle : cust.creditProfile.availableCredit ≤
            cust.creditProfile.creditLimit := by
          rw [hceq] at hlim
          linarith
        simp [deleteSale, hfinds, hsalecred, hceq, List.filter, hsaleid,
          min_eq_left hle]
/-- C2 witness: the spec scenario — availableCredit 10000, creditLimit
10000, a sale on credit 5000: after creation availableCredit is 5000 and
after deleting the sale it is back to 10000. -/
theorem C2_witness :
    ∃ sale : Sale,
      createSale { customers := [exCustC2], sales := [] } 7 exBodyC2 9 0 =
        (Resp.success 201,
          { customers := [{ exCustC2 with creditProfile := { exCustC2.creditProfile with
              availableCredit := exCustC2.creditProfile.availableCredit
                - exBodyC2.paymentDetails.creditAmount } }],
            sales := [sale] }) ∧
      deleteSale
        { customers := [{ exCustC2 with creditProfile := { exCustC2.creditProfile with
            availableCredit := exCustC2.creditProfile.availableCredit
              - exBodyC2.paymentDetails.creditAmount } }],
          sales := [sale] } 7 9 =
        (Resp.success 204,
          { customers := [{ exCustC2 with creditProfile := { exCustC2.creditProfile with
              availableCredit := min exCustC2.creditProfile.availableCredit
                exCustC2.creditProfile.creditLimit } }],
            sales := [] }) :=
  C2_create_then_delete_roundtrip exCustC2 exBodyC2 7 9 0
    (by decide) (by decide) (by decide) (by decide) (by decide)
    (by norm_num [exCustC2, exBodyC2])
    (by
      norm_num [saleValid, optValid, cent_eq, exBodyC2]
      all_goals decide)
    (by norm_num [jsAbs, cent_eq, exBodyC2])

end Cashflow
